import Mathlib

/-!
Shallow embedding of the Cloud-Native Hybrid Threat Detection System's
response core: the risk-fusion function (`src/threat_fusion_engine.py`),
the autonomous response agent (`src/autonomous_response_agent.py`) and the
alert system's email rate limiter (`src/alert_system.py`).

Modelling conventions:
- Python floats become exact rationals (`ℚ`); all risk arithmetic in the
  source is on small decimal constants, so the rational model is exact.
- `datetime` timestamps become `Int` epoch seconds; `timedelta(minutes=m)`
  becomes `m * 60` seconds.
- Python dicts keyed by IP become association lists `List (String × β)`
  with first-match lookup; the dict guarantees at most one entry per key,
  which here is a provable invariant (`atMostOneEntry`).
- The external AWS EC2 calls (`authorize_security_group_ingress`,
  `revoke_security_group_ingress`) are modelled by an `Ec2Result` oracle
  supplied at each call site: `ok`, a duplicate-rule client error, another
  client error, or an unexpected exception — exactly the four outcomes the
  source distinguishes in its `try/except` arms.
-/

namespace ThreatDetection

/-- Outcome of an external AWS EC2 security-group call, as distinguished by
the `try/except` arms in `block_ip_address` / `unblock_ip_address`. -/
inductive Ec2Result where
  | ok : Ec2Result
  | duplicateRule : Ec2Result
  | clientError : Ec2Result
  | otherError : Ec2Result
  deriving DecidableEq, Repr

/-- Python `BlockedIP` dataclass: tracking record for one blocked IP. -/
structure BlockedIP where
  ip_address : String
  blocked_at : Int
  risk_score : ℚ
  security_group_id : String
  rule_id : Option String := none
  reason : String := "High threat detected"
  deriving DecidableEq, Repr

/-- One entry of `self.alert_history` as built by `send_alert`. -/
structure AlertRecord where
  timestamp : Int
  ip_address : String
  risk_score : ℚ
  network_risk : ℚ
  user_risk : ℚ
  threat_level : String
  action : String
  deriving DecidableEq, Repr

/-- The `self.stats` dictionary of the agent. -/
structure AgentStats where
  total_blocks : Nat
  total_unblocks : Nat
  total_alerts : Nat
  total_rate_limits : Nat
  start_time : Int
  deriving DecidableEq, Repr

/-- Full mutable state of one `AutonomousResponseAgent` instance. -/
structure AgentState where
  security_group_id : String
  region : String
  block_timeout_minutes : Int
  monitoring_interval : Int
  blocked_ips : List (String × BlockedIP)
  rate_limited_ips : List (String × Int)
  alert_history : List AlertRecord
  stats : AgentStats
  deriving DecidableEq, Repr

/-- First-match lookup in a Python-dict-as-association-list. -/
def dictGet {β : Type} (l : List (String × β)) (k : String) : Option β :=
  (l.find? (fun p => p.1 == k)).map (fun p => p.2)

/-- Python dict assignment `d[k] = v`: replace the entry if the key is
present, otherwise append (insertion order). -/
def dictSet {β : Type} (l : List (String × β)) (k : String) (v : β) : List (String × β) :=
  if l.any (fun p => p.1 == k) then
    l.map (fun p => if p.1 == k then (k, v) else p)
  else
    l ++ [(k, v)]

/-- Python dict `d.pop(k)`: drop the entry with key `k`. -/
def dictPop {β : Type} (l : List (String × β)) (k : String) : List (String × β) :=
  l.filter (fun p => p.1 != k)

/-- State built by `AutonomousResponseAgent.__init__` once the AWS client
initialization has succeeded: empty registries and zeroed counters. -/
def initialState (security_group_id region : String)
    (block_timeout_minutes monitoring_interval : Int) (now : Int) : AgentState :=
  { security_group_id := security_group_id
    region := region
    block_timeout_minutes := block_timeout_minutes
    monitoring_interval := monitoring_interval
    blocked_ips := []
    rate_limited_ips := []
    alert_history := []
    stats := { total_blocks := 0, total_unblocks := 0, total_alerts := 0,
               total_rate_limits := 0, start_time := now } }

/-- Constructor `AutonomousResponseAgent.__init__`: the only failure path in the source
is the `boto3.client` call inside its `try`; no configuration value is
validated. `ec2_client_ok` is the outcome of that external call. -/
def initAgent (security_group_id region : String)
    (block_timeout_minutes monitoring_interval : Int) (now : Int)
    (ec2_client_ok : Bool) : Option AgentState :=
  if ec2_client_ok then
    some (initialState security_group_id region block_timeout_minutes monitoring_interval now)
  else
    none

/-- Classifier `AutonomousResponseAgent.assess_threat_level` (inclusive lower bounds). -/
def assess_threat_level (risk_score : ℚ) : String :=
  if risk_score ≥ 4/5 then "CRITICAL"
  else if risk_score ≥ 3/5 then "HIGH"
  else if risk_score ≥ 2/5 then "MEDIUM"
  else "LOW"

/-- Function `combine_risks` from `threat_fusion_engine.py` (strict thresholds). -/
def combine_risks (network_risk user_risk : ℚ) : ℚ × String :=
  let final_risk := (3/5) * network_risk + (2/5) * user_risk
  let level :=
    if final_risk > 4/5 then "CRITICAL"
    else if final_risk > 3/5 then "HIGH"
    else if final_risk > 2/5 then "MEDIUM"
    else "LOW"
  (final_risk, level)

/-- Method `log_threat`: writes a log line only; no state mutation. -/
def log_threat (st : AgentState) (_ip_address : String)
    (_risk_score _network_risk _user_risk : ℚ) : AgentState :=
  st

/-- Method `send_alert`: unconditionally appends an alert record to
`alert_history` and increments `total_alerts`. The source consults no rate
limiter here. -/
def send_alert (st : AgentState) (ip_address : String)
    (risk_score network_risk user_risk : ℚ) (threat_level : String)
    (now : Int) : AgentState :=
  { st with
    alert_history := st.alert_history ++
      [{ timestamp := now, ip_address := ip_address, risk_score := risk_score,
         network_risk := network_risk, user_risk := user_risk,
         threat_level := threat_level, action := "ALERT_SENT" }]
    stats := { st.stats with total_alerts := st.stats.total_alerts + 1 } }

/-- Method `simulate_rate_limiting`: records the IP with the current timestamp and
increments `total_rate_limits`. -/
def simulate_rate_limiting (st : AgentState) (ip_address : String)
    (_risk_score : ℚ) (now : Int) : AgentState :=
  { st with
    rate_limited_ips := dictSet st.rate_limited_ips ip_address now
    stats := { st.stats with total_rate_limits := st.stats.total_rate_limits + 1 } }

/-- Method `block_ip_address`: skip if the IP is already in `blocked_ips`;
otherwise call the external EC2 authorize, and only on success append the
tracking entry and bump `total_blocks`. Every exception arm returns
`False` with the state untouched. -/
def block_ip_address (st : AgentState) (ip_address : String)
    (risk_score _network_risk _user_risk : ℚ) (now : Int)
    (ext : Ec2Result) : Bool × AgentState :=
  if (dictGet st.blocked_ips ip_address).isSome then
    (false, st)
  else
    match ext with
    | Ec2Result.ok =>
        let blocked : BlockedIP :=
          { ip_address := ip_address, blocked_at := now, risk_score := risk_score,
            security_group_id := st.security_group_id,
            reason := "Critical threat: Risk " ++ toString risk_score }
        (true,
          { st with
            blocked_ips := st.blocked_ips ++ [(ip_address, blocked)]
            stats := { st.stats with total_blocks := st.stats.total_blocks + 1 } })
    | _ => (false, st)

/-- Method `unblock_ip_address`: `False` if the IP is not tracked; otherwise call
the external EC2 revoke, and only on success pop the entry and bump
`total_unblocks`. Every exception arm returns `False` with the state
untouched. -/
def unblock_ip_address (st : AgentState) (ip_address : String)
    (ext : Ec2Result) : Bool × AgentState :=
  if (dictGet st.blocked_ips ip_address).isSome then
    match ext with
    | Ec2Result.ok =>
        (true,
          { st with
            blocked_ips := dictPop st.blocked_ips ip_address
            stats := { st.stats with total_unblocks := st.stats.total_unblocks + 1 } })
    | _ => (false, st)
  else
    (false, st)

/-- Method `check_and_unblock_expired`: collect the IPs whose age strictly exceeds
the timeout, then unblock each through `unblock_ip_address`. `extOf` gives
the external revoke outcome per IP. -/
def check_and_unblock_expired (st : AgentState) (now : Int)
    (extOf : String → Ec2Result) : AgentState :=
  let expired_ips := (st.blocked_ips.filter
    (fun p => now - p.2.blocked_at > st.block_timeout_minutes * 60)).map (fun p => p.1)
  expired_ips.foldl (fun s ip => (unblock_ip_address s ip (extOf ip)).2) st

/-- Method `take_action`: the graduated-response dispatch of the agent. -/
def take_action (st : AgentState) (ip_address : String)
    (risk_score network_risk user_risk : ℚ) (now : Int)
    (ext : Ec2Result) : String × AgentState :=
  let threat_level := assess_threat_level risk_score
  if risk_score < 2/5 then
    ("LOG", log_threat st ip_address risk_score network_risk user_risk)
  else if 2/5 ≤ risk_score ∧ risk_score < 3/5 then
    ("ALERT", send_alert st ip_address risk_score network_risk user_risk threat_level now)
  else if 3/5 ≤ risk_score ∧ risk_score < 4/5 then
    let st1 := simulate_rate_limiting st ip_address risk_score now
    ("RATE_LIMIT", send_alert st1 ip_address risk_score network_risk user_risk threat_level now)
  else
    let res := block_ip_address st ip_address risk_score network_risk user_risk now ext
    if res.1 then
      ("BLOCK", send_alert res.2 ip_address risk_score network_risk user_risk threat_level now)
    else
      ("BLOCK_FAILED", res.2)

/-- One element of `ids_engine.detect()`'s result list. -/
structure NetEntry where
  ip : String
  network_risk : ℚ
  deriving DecidableEq, Repr

/-- One element of `ueba_engine.detect()`'s result list. -/
structure UserEntry where
  ip : String
  user_risk : ℚ
  deriving DecidableEq, Repr

/-- The per-entity user-risk join of `run_monitoring_cycle`: first matching
behavior entry, else the fixed fallback 0.1. -/
def matchUserRisk (user_results : List UserEntry) (ip : String) : ℚ :=
  match user_results.find? (fun u => u.ip == ip) with
  | some u => u.user_risk
  | none => 1/10

/-- The `for net in network_results` loop body of `run_monitoring_cycle`.
`fusion_function` is the caller-supplied fusion callback; a Python
exception raised while processing an entity is modelled by
`Except.error`, carrying the state as mutated so far — control then
transfers to the cycle's single `except` handler. -/
def processEntities (st : AgentState) (network_results : List NetEntry)
    (user_results : List UserEntry)
    (fusion_function : ℚ → ℚ → Except Unit (ℚ × String)) (now : Int)
    (extOf : String → Ec2Result) : Except AgentState AgentState :=
  match network_results with
  | [] => Except.ok st
  | net :: rest =>
      let user_risk := matchUserRisk user_results net.ip
      match fusion_function net.network_risk user_risk with
      | Except.error _ => Except.error st
      | Except.ok fused =>
          let res := take_action st net.ip fused.1 net.network_risk user_risk now (extOf net.ip)
          processEntities res.2 rest user_results fusion_function now extOf

/-- State carried by either outcome of the entity loop. -/
def cycleState (r : Except AgentState AgentState) : AgentState :=
  match r with
  | Except.ok s => s
  | Except.error s => s

/-- Method `run_monitoring_cycle`: process every fetched network entry, then run
the expiry sweep. The whole body sits in one `try`; an exception raised
anywhere in the loop jumps to the `except` arm, which logs and returns —
so on a per-entity failure the remaining entities and the sweep are
skipped, but the mutations made before the failure are kept. -/
def run_monitoring_cycle (st : AgentState) (network_results : List NetEntry)
    (user_results : List UserEntry)
    (fusion_function : ℚ → ℚ → Except Unit (ℚ × String)) (now : Int)
    (extOf : String → Ec2Result) : AgentState :=
  match processEntities st network_results user_results fusion_function now extOf with
  | Except.ok st1 => check_and_unblock_expired st1 now extOf
  | Except.error st1 => st1

/-- The fusion callback the production wiring passes to the cycle:
`combine_risks`, which never raises. -/
def fuse_ok : ℚ → ℚ → Except Unit (ℚ × String) :=
  fun network_risk user_risk => Except.ok (combine_risks network_risk user_risk)

/-- The slice of `AlertSystem`'s configuration that its email rate limiter
reads: `email.enabled`, `thresholds.email_threshold`,
`rate_limiting.max_emails_per_hour`. -/
structure AlertSysConfig where
  email_enabled : Bool
  email_threshold : ℚ
  max_emails_per_hour : Nat
  deriving DecidableEq, Repr

/-- Python expression `now.replace(minute=0, second=0, microsecond=0)` on epoch seconds:
the start of the current clock hour. -/
def hourStart (now : Int) : Int :=
  now - now % 3600

/-- Method `AlertSystem.check_rate_limit`: count alert records of the current
clock hour whose risk is at least the email threshold; admit iff that
count is below `max_emails_per_hour`. Records are `(timestamp, final_risk)`
pairs. -/
def check_rate_limit (cfg : AlertSysConfig) (alert_history : List (Int × ℚ))
    (now : Int) : Bool :=
  let hour_ago := hourStart now
  let recent_emails := alert_history.filter
    (fun a => hour_ago ≤ a.1 ∧ cfg.email_threshold ≤ a.2)
  recent_emails.length < cfg.max_emails_per_hour

/-- Method `AlertSystem.send_email_alert`: consults `check_rate_limit` and sends
the email only if it admits. Returns whether an email went out. -/
def send_email_alert (cfg : AlertSysConfig) (alert_history : List (Int × ℚ))
    (now : Int) : Bool :=
  check_rate_limit cfg alert_history now

/-- Method `AlertSystem.process_alert`: email fires only for risks at or above the
email threshold and only when email is enabled. -/
def process_alert (cfg : AlertSysConfig) (alert_history : List (Int × ℚ))
    (now : Int) (final_risk : ℚ) : Bool :=
  if cfg.email_threshold ≤ final_risk ∧ cfg.email_enabled = true then
    send_email_alert cfg alert_history now
  else
    false

/-- Method `AlertSystem.create_alert`: the record is appended to `alert_history`
first, unconditionally; only then is the alert processed (and possibly an
email sent, subject to the rate limiter). Returns the new history and
whether an email was sent. -/
def create_alert (cfg : AlertSysConfig) (alert_history : List (Int × ℚ))
    (now : Int) (final_risk : ℚ) : List (Int × ℚ) × Bool :=
  let history1 := alert_history ++ [(now, final_risk)]
  (history1, process_alert cfg history1 now final_risk)

/-- Return value of `get_statistics`. -/
structure Statistics where
  uptime_seconds : Int
  total_blocks : Nat
  total_unblocks : Nat
  total_alerts : Nat
  total_rate_limits : Nat
  currently_blocked : Nat
  blocked_ips : List String
  deriving DecidableEq, Repr

/-- Method `get_statistics`: read-only snapshot of the agent's counters. -/
def get_statistics (st : AgentState) (now : Int) : Statistics :=
  { uptime_seconds := now - st.stats.start_time
    total_blocks := st.stats.total_blocks
    total_unblocks := st.stats.total_unblocks
    total_alerts := st.stats.total_alerts
    total_rate_limits := st.stats.total_rate_limits
    currently_blocked := st.blocked_ips.length
    blocked_ips := st.blocked_ips.map (fun p => p.1) }

/-- Number of registry entries carrying a given key. A Python dict keeps
this at most 1 by construction; in the association-list model it is a
provable invariant. -/
def keyCount (l : List (String × BlockedIP)) (ip : String) : Nat :=
  l.countP (fun p => p.1 == ip)

/-- Registry invariant of claim C1: at most one BlockEntry per EntityId. -/
def atMostOneEntry (st : AgentState) : Prop :=
  ∀ ip, keyCount st.blocked_ips ip ≤ 1

/-- Counter invariant of claim C10: `total_blocks` always equals the
registry size plus `total_unblocks` (both counters start at zero on an
empty registry). -/
def blockCountInv (st : AgentState) : Prop :=
  st.stats.total_blocks = st.blocked_ips.length + st.stats.total_unblocks

/-- Fresh agent used by the concrete scenarios: block timeout 10 minutes,
monitoring interval 60 seconds, started at epoch 0. -/
def sgTestState : AgentState :=
  initialState "sg-test" "ap-south-1" 10 60 0

/-- Oracle under which every external EC2 call succeeds. -/
def extAllOk : String → Ec2Result :=
  fun _ => Ec2Result.ok

/-- Three MEDIUM-band actions issued within the same clock hour
(timestamps 100, 200, 300) against a fresh agent. -/
def threeMediumState : AgentState :=
  (take_action (take_action (take_action sgTestState
    "10.0.0.1" (1/2) (1/2) (1/2) 100 Ec2Result.ok).2
    "10.0.0.2" (1/2) (1/2) (1/2) 200 Ec2Result.ok).2
    "10.0.0.3" (1/2) (1/2) (1/2) 300 Ec2Result.ok).2

/-- Fusion callback that raises on network risk 1/2 and otherwise behaves
like `combine_risks`: a per-entity failure injected at the fusion step of
the monitoring cycle. -/
def fuseFailHalf : ℚ → ℚ → Except Unit (ℚ × String) :=
  fun n u => if n = 1/2 then Except.error () else Except.ok (combine_risks n u)

/-- Network fetch with two entries: the first will make `fuseFailHalf`
raise, the second fuses to a CRITICAL risk. -/
def cexNets : List NetEntry :=
  [⟨"10.0.0.1", 1/2⟩, ⟨"10.0.0.2", 19/20⟩]

/-- Behavior fetch matching only the second network entry. -/
def cexUsers : List UserEntry :=
  [⟨"10.0.0.2", 1⟩]

/-- Tracking record of the entity blocked in the one-entry scenario. -/
def oneBlockedRecord : BlockedIP :=
  { ip_address := "9.9.9.9", blocked_at := 100, risk_score := 1,
    security_group_id := "sg-test", reason := "Critical threat" }

/-- Agent holding exactly one block, issued at time 100, with the counters
consistent with one block and no unblock. -/
def oneBlockedState : AgentState :=
  { sgTestState with
    blocked_ips := [("9.9.9.9", oneBlockedRecord)]
    stats := { sgTestState.stats with total_blocks := 1 } }

/-! Helper lemmas about the dict model. -/

theorem foldl_preserve {α β : Type} (P : α → Prop) (f : α → β → α)
    (h : ∀ a b, P a → P (f a b)) :
    ∀ (l : List β) (a : α), P a → P (l.foldl f a) := by
  intro l
  induction l with
  | nil => intro a ha; simpa using ha
  | cons x xs ih => intro a ha; simpa using ih (f a x) (h a x ha)

theorem dictGet_cons {β : Type} (p : String × β) (rest : List (String × β))
    (ip : String) :
    dictGet (p :: rest) ip = if p.1 == ip then some p.2 else dictGet rest ip := by
  cases hpi : (p.1 == ip) <;> simp [dictGet, List.find?_cons, hpi]

theorem dictPop_cons {β : Type} (p : String × β) (rest : List (String × β))
    (j : String) :
    dictPop (p :: rest) j = if p.1 == j then dictPop rest j else p :: dictPop rest j := by
  cases hpj : (p.1 == j) <;> simp [dictPop, List.filter_cons, bne, hpj]

theorem keyCount_cons (p : String × BlockedIP) (rest : List (String × BlockedIP))
    (ip : String) :
    keyCount (p :: rest) ip = (if p.1 == ip then 1 else 0) + keyCount rest ip := by
  cases hpi : (p.1 == ip)
  · simp [keyCount, List.countP_cons, hpi]
  · simp [keyCount, List.countP_cons, hpi]
    omega

theorem dictGet_none_iff {β : Type} (l : List (String × β)) (k : String) :
    dictGet l k = none ↔ ∀ p ∈ l, p.1 ≠ k := by
  simp [dictGet, List.find?_eq_none]

theorem keyCount_append (l l' : List (String × BlockedIP)) (ip : String) :
    keyCount (l ++ l') ip = keyCount l ip + keyCount l' ip := by
  simp [keyCount, List.countP_append]

theorem keyCount_eq_zero_of_dictGet_none (l : List (String × BlockedIP))
    (ip : String) (h : dictGet l ip = none) : keyCount l ip = 0 := by
  rw [dictGet_none_iff] at h
  simp only [keyCount, List.countP_eq_zero]
  intro p hp
  simpa using h p hp

theorem keyCount_pos_of_dictGet_isSome (l : List (String × BlockedIP))
    (ip : String) (h : (dictGet l ip).isSome) : 1 ≤ keyCount l ip := by
  by_contra hlt
  have h0 : keyCount l ip = 0 := by omega
  have hnone : dictGet l ip = none := by
    rw [dictGet_none_iff]
    intro p hp
    have := List.countP_eq_zero.mp h0 p hp
    simpa using this
  rw [hnone] at h
  simp at h

theorem keyCount_dictPop_self (l : List (String × BlockedIP)) (ip : String) :
    keyCount (dictPop l ip) ip = 0 := by
  simp only [keyCount, dictPop, List.countP_eq_zero]
  intro p hp
  rcases List.mem_filter.mp hp with ⟨_, hne⟩
  simpa using hne

theorem keyCount_dictPop_le (l : List (String × BlockedIP)) (j ip : String) :
    keyCount (dictPop l j) ip ≤ keyCount l ip :=
  List.Sublist.countP_le _ (List.filter_sublist l)

theorem dictGet_dictPop_self {β : Type} (l : List (String × β)) (ip : String) :
    dictGet (dictPop l ip) ip = none := by
  rw [dictGet_none_iff]
  intro p hp
  rcases List.mem_filter.mp hp with ⟨_, hne⟩
  simpa using hne

theorem dictGet_dictPop_ne {β : Type} (l : List (String × β)) (j ip : String)
    (h : j ≠ ip) : dictGet (dictPop l j) ip = dictGet l ip := by
  induction l with
  | nil => rfl
  | cons p rest ih =>
      rw [dictPop_cons]
      cases hpj : (p.1 == j)
      · rw [if_neg (by simp [hpj]), dictGet_cons, dictGet_cons]
        cases hpi : (p.1 == ip)
        · rw [if_neg (by simp [hpi]), if_neg (by simp [hpi])]
          exact ih
        · rw [if_pos (by simp [hpi]), if_pos (by simp [hpi])]
      · have hpj' : p.1 = j := by simpa using hpj
        have hpi : (p.1 == ip) = false := by
          simp only [beq_eq_false_iff_ne, ne_eq, hpj']
          exact h
        rw [if_pos (by simp [hpj]), dictGet_cons, if_neg (by simp [hpi])]
        exact ih

theorem dictGet_dictPop_none {β : Type} (l : List (String × β)) (j ip : String)
    (h : dictGet l ip = none) : dictGet (dictPop l j) ip = none := by
  rw [dictGet_none_iff] at h ⊢
  intro p hp
  exact h p (List.mem_of_mem_filter hp)

theorem dictGet_append_right {β : Type} (l : List (String × β)) (k : String)
    (v : β) (h : dictGet l k = none) :
    dictGet (l ++ [(k, v)]) k = some v := by
  induction l with
  | nil => simp [dictGet, List.find?_cons]
  | cons p rest ih =>
      rw [dictGet_cons] at h
      by_cases hpk : (p.1 == k) = true
      · rw [if_pos hpk] at h
        simp at h
      · rw [if_neg hpk] at h
        rw [List.cons_append, dictGet_cons, if_neg hpk]
        exact ih h

theorem dictGet_unique (l : List (String × BlockedIP)) (ip : String)
    (b b' : BlockedIP) (hA : keyCount l ip ≤ 1)
    (hg : dictGet l ip = some b) (hm : (ip, b') ∈ l) : b' = b := by
  induction l with
  | nil => simp at hm
  | cons p rest ih =>
      rw [dictGet_cons] at hg
      rw [keyCount_cons] at hA
      by_cases hpk : (p.1 == ip) = true
      · rw [if_pos hpk] at hg hA
        have hb : p.2 = b := by simpa using hg
        have hrest : keyCount rest ip = 0 := by omega
        rcases List.mem_cons.mp hm with hhead | htail
        · rw [← hhead] at hb
          simpa using hb
        · exfalso
          have := List.countP_eq_zero.mp hrest _ htail
          simp at this
      · rw [if_neg hpk] at hg hA
        rcases List.mem_cons.mp hm with hhead | htail
        · exfalso
          apply hpk
          rw [← hhead]
          simp
        · exact ih (by omega) hg htail

theorem length_dictPop_of_unique (l : List (String × BlockedIP)) (ip : String)
    (hA : keyCount l ip ≤ 1) (h : (dictGet l ip).isSome) :
    (dictPop l ip).length + 1 = l.length := by
  have h1 : 1 ≤ keyCount l ip := keyCount_pos_of_dictGet_isSome l ip h
  have h2 : keyCount l ip = 1 := le_antisymm hA h1
  have h3 : (dictPop l ip).length = l.countP (fun p => !(p.1 == ip)) := by
    simp [dictPop, ← List.countP_eq_length_filter, bne]
  have h4 : l.length = l.countP (fun p => p.1 == ip) + l.countP (fun p => !(p.1 == ip)) := by
    have h5 := List.length_eq_countP_add_countP (fun p : String × BlockedIP => p.1 == ip) l
    simpa [decide_not] using h5
  simp only [keyCount] at h2
  omega

theorem keyCount_singleton (ip k : String) (b : BlockedIP) :
    keyCount [(ip, b)] k = if ip == k then 1 else 0 := by
  cases h : (ip == k) <;> simp [keyCount, List.countP_cons, h]

theorem keyCount_append_singleton_le (l : List (String × BlockedIP))
    (ip k : String) (b : BlockedIP) (hnone : dictGet l ip = none)
    (h : ∀ k', keyCount l k' ≤ 1) : keyCount (l ++ [(ip, b)]) k ≤ 1 := by
  rw [keyCount_append, keyCount_singleton]
  by_cases hk : ip = k
  · subst hk
    have h0 := keyCount_eq_zero_of_dictGet_none l ip hnone
    simp only [beq_self_eq_true, if_true]
    omega
  · have h1 := h k
    have hk' : (ip == k) = false := by simpa using hk
    rw [hk']
    simp only [Bool.false_eq_true, if_false]
    omega

/-! Characterization of each operation, one lemma per control path. -/

theorem block_ip_address_already (st : AgentState) (ip : String)
    (r nr ur : ℚ) (now : Int) (e : Ec2Result)
    (h : (dictGet st.blocked_ips ip).isSome) :
    block_ip_address st ip r nr ur now e = (false, st) := by
  simp [block_ip_address, h]

theorem block_ip_address_ok (st : AgentState) (ip : String)
    (r nr ur : ℚ) (now : Int) (h : dictGet st.blocked_ips ip = none) :
    block_ip_address st ip r nr ur now Ec2Result.ok =
      (true,
        { st with
          blocked_ips := st.blocked_ips ++
            [(ip, { ip_address := ip, blocked_at := now, risk_score := r,
                    security_group_id := st.security_group_id,
                    reason := "Critical threat: Risk " ++ toString r })]
          stats := { st.stats with total_blocks := st.stats.total_blocks + 1 } }) := by
  simp [block_ip_address, h]

theorem block_ip_address_fail (st : AgentState) (ip : String)
    (r nr ur : ℚ) (now : Int) (e : Ec2Result) (he : e ≠ Ec2Result.ok) :
    block_ip_address st ip r nr ur now e = (false, st) := by
  cases e with
  | ok => exact absurd rfl he
  | duplicateRule =>
      unfold block_ip_address
      split <;> rfl
  | clientError =>
      unfold block_ip_address
      split <;> rfl
  | otherError =>
      unfold block_ip_address
      split <;> rfl

theorem unblock_not_blocked (st : AgentState) (ip : String) (e : Ec2Result)
    (h : dictGet st.blocked_ips ip = none) :
    unblock_ip_address st ip e = (false, st) := by
  simp [unblock_ip_address, h]

theorem unblock_ok (st : AgentState) (ip : String)
    (h : (dictGet st.blocked_ips ip).isSome) :
    unblock_ip_address st ip Ec2Result.ok =
      (true,
        { st with
          blocked_ips := dictPop st.blocked_ips ip
          stats := { st.stats with total_unblocks := st.stats.total_unblocks + 1 } }) := by
  simp [unblock_ip_address, h]

theorem unblock_fail (st : AgentState) (ip : String) (e : Ec2Result)
    (he : e ≠ Ec2Result.ok) : unblock_ip_address st ip e = (false, st) := by
  cases e with
  | ok => exact absurd rfl he
  | duplicateRule =>
      unfold unblock_ip_address
      split <;> rfl
  | clientError =>
      unfold unblock_ip_address
      split <;> rfl
  | otherError =>
      unfold unblock_ip_address
      split <;> rfl

theorem take_action_low (st : AgentState) (ip : String) (r nr ur : ℚ)
    (now : Int) (e : Ec2Result) (h : r < 2/5) :
    take_action st ip r nr ur now e = ("LOG", st) := by
  simp only [take_action]
  rw [if_pos h]
  rfl

theorem take_action_medium (st : AgentState) (ip : String) (r nr ur : ℚ)
    (now : Int) (e : Ec2Result) (h1 : 2/5 ≤ r) (h2 : r < 3/5) :
    take_action st ip r nr ur now e =
      ("ALERT", send_alert st ip r nr ur "MEDIUM" now) := by
  have hlevel : assess_threat_level r = "MEDIUM" := by
    unfold assess_threat_level
    rw [if_neg (by linarith), if_neg (by linarith), if_pos (by linarith)]
  simp only [take_action, hlevel]
  rw [if_neg (by linarith), if_pos ⟨h1, h2⟩]

theorem take_action_high (st : AgentState) (ip : String) (r nr ur : ℚ)
    (now : Int) (e : Ec2Result) (h1 : 3/5 ≤ r) (h2 : r < 4/5) :
    take_action st ip r nr ur now e =
      ("RATE_LIMIT",
        send_alert (simulate_rate_limiting st ip r now) ip r nr ur "HIGH" now) := by
  have hlevel : assess_threat_level r = "HIGH" := by
    unfold assess_threat_level
    rw [if_neg (by linarith), if_pos (by linarith)]
  simp only [take_action, hlevel]
  rw [if_neg (by linarith),
      if_neg (by intro hc; exact absurd hc.2 (by linarith)),
      if_pos ⟨h1, h2⟩]

theorem take_action_critical_new (st : AgentState) (ip : String) (r nr ur : ℚ)
    (now : Int) (h1 : 4/5 ≤ r) (hnone : dictGet st.blocked_ips ip = none) :
    take_action st ip r nr ur now Ec2Result.ok =
      ("BLOCK",
        send_alert (block_ip_address st ip r nr ur now Ec2Result.ok).2
          ip r nr ur "CRITICAL" now) := by
  have hlevel : assess_threat_level r = "CRITICAL" := by
    unfold assess_threat_level
    rw [if_pos (by linarith)]
  simp only [take_action, hlevel]
  rw [if_neg (by linarith),
      if_neg (by intro hc; exact absurd hc.1 (by linarith)),
      if_neg (by intro hc; exact absurd hc.2 (by linarith))]
  rw [block_ip_address_ok st ip r nr ur now hnone]
  simp

theorem take_action_critical_noop (st : AgentState) (ip : String) (r nr ur : ℚ)
    (now : Int) (e : Ec2Result) (h1 : 4/5 ≤ r)
    (h : block_ip_address st ip r nr ur now e = (false, st)) :
    take_action st ip r nr ur now e = ("BLOCK_FAILED", st) := by
  have hlevel : assess_threat_level r = "CRITICAL" := by
    unfold assess_threat_level
    rw [if_pos (by linarith)]
  simp only [take_action, hlevel]
  rw [if_neg (by linarith),
      if_neg (by intro hc; exact absurd hc.1 (by linarith)),
      if_neg (by intro hc; exact absurd hc.2 (by linarith))]
  rw [h]
  simp

/-! Preservation of the registry and counter invariants. -/

theorem atMostOne_of_eq (st st' : AgentState)
    (h : st'.blocked_ips = st.blocked_ips) (hA : atMostOneEntry st) :
    atMostOneEntry st' := by
  intro k
  rw [h]
  exact hA k

theorem block_preserves_atMostOne (st : AgentState) (ip : String)
    (r nr ur : ℚ) (now : Int) (e : Ec2Result) (h : atMostOneEntry st) :
    atMostOneEntry (block_ip_address st ip r nr ur now e).2 := by
  by_cases hb : (dictGet st.blocked_ips ip).isSome
  · rw [block_ip_address_already st ip r nr ur now e hb]
    exact h
  · have hnone : dictGet st.blocked_ips ip = none :=
      Option.not_isSome_iff_eq_none.mp hb
    cases e with
    | ok =>
        rw [block_ip_address_ok st ip r nr ur now hnone]
        intro k
        exact keyCount_append_singleton_le st.blocked_ips ip k _ hnone h
    | duplicateRule =>
        rw [block_ip_address_fail st ip r nr ur now _ (by simp)]
        exact h
    | clientError =>
        rw [block_ip_address_fail st ip r nr ur now _ (by simp)]
        exact h
    | otherError =>
        rw [block_ip_address_fail st ip r nr ur now _ (by simp)]
        exact h

theorem unblock_preserves_atMostOne (st : AgentState) (ip : String)
    (e : Ec2Result) (h : atMostOneEntry st) :
    atMostOneEntry (unblock_ip_address st ip e).2 := by
  by_cases hb : (dictGet st.blocked_ips ip).isSome
  · cases e with
    | ok =>
        rw [unblock_ok st ip hb]
        intro k
        exact le_trans (keyCount_dictPop_le st.blocked_ips ip k) (h k)
    | duplicateRule =>
        rw [unblock_fail st ip _ (by simp)]
        exact h
    | clientError =>
        rw [unblock_fail st ip _ (by simp)]
        exact h
    | otherError =>
        rw [unblock_fail st ip _ (by simp)]
        exact h
  · rw [unblock_not_blocked st ip e (Option.not_isSome_iff_eq_none.mp hb)]
    exact h

theorem take_action_preserves_atMostOne (st : AgentState) (ip : String)
    (r nr ur : ℚ) (now : Int) (e : Ec2Result) (h : atMostOneEntry st) :
    atMostOneEntry (take_action st ip r nr ur now e).2 := by
  by_cases h1 : r < 2/5
  · rw [take_action_low st ip r nr ur now e h1]
    exact h
  by_cases h2 : r < 3/5
  · rw [take_action_medium st ip r nr ur now e (by linarith) h2]
    exact atMostOne_of_eq st _ rfl h
  by_cases h3 : r < 4/5
  · rw [take_action_high st ip r nr ur now e (by linarith) h3]
    exact atMostOne_of_eq st _ rfl h
  · by_cases hb : (dictGet st.blocked_ips ip).isSome
    · rw [take_action_critical_noop st ip r nr ur now e (by linarith)
        (block_ip_address_already st ip r nr ur now e hb)]
      exact h
    · have hnone : dictGet st.blocked_ips ip = none :=
        Option.not_isSome_iff_eq_none.mp hb
      cases e with
      | ok =>
          rw [take_action_critical_new st ip r nr ur now (by linarith) hnone]
          exact atMostOne_of_eq _ _ rfl
            (block_preserves_atMostOne st ip r nr ur now Ec2Result.ok h)
      | duplicateRule =>
          rw [take_action_critical_noop st ip r nr ur now _ (by linarith)
            (block_ip_address_fail st ip r nr ur now _ (by simp))]
          exact h
      | clientError =>
          rw [take_action_critical_noop st ip r nr ur now _ (by linarith)
            (block_ip_address_fail st ip r nr ur now _ (by simp))]
          exact h
      | otherError =>
          rw [take_action_critical_noop st ip r nr ur now _ (by linarith)
            (block_ip_address_fail st ip r nr ur now _ (by simp))]
          exact h

theorem sweep_preserves_atMostOne (st : AgentState) (now : Int)
    (extOf : String → Ec2Result) (h : atMostOneEntry st) :
    atMostOneEntry (check_and_unblock_expired st now extOf) := by
  unfold check_and_unblock_expired
  exact foldl_preserve atMostOneEntry _
    (fun s j hs => unblock_preserves_atMostOne s j (extOf j) hs) _ st h

theorem blockCountInv_of_eq (st st' : AgentState)
    (hb : st'.blocked_ips = st.blocked_ips)
    (h1 : st'.stats.total_blocks = st.stats.total_blocks)
    (h2 : st'.stats.total_unblocks = st.stats.total_unblocks)
    (hI : blockCountInv st) : blockCountInv st' := by
  unfold blockCountInv at hI ⊢
  rw [hb, h1, h2]
  exact hI

theorem block_preserves_blockCountInv (st : AgentState) (ip : String)
    (r nr ur : ℚ) (now : Int) (e : Ec2Result) (hI : blockCountInv st) :
    blockCountInv (block_ip_address st ip r nr ur now e).2 := by
  by_cases hb : (dictGet st.blocked_ips ip).isSome
  · rw [block_ip_address_already st ip r nr ur now e hb]
    exact hI
  · have hnone : dictGet st.blocked_ips ip = none :=
      Option.not_isSome_iff_eq_none.mp hb
    cases e with
    | ok =>
        rw [block_ip_address_ok st ip r nr ur now hnone]
        unfold blockCountInv at hI ⊢
        simp only [List.length_append, List.length_cons, List.length_nil]
        omega
    | duplicateRule =>
        rw [block_ip_address_fail st ip r nr ur now _ (by simp)]
        exact hI
    | clientError =>
        rw [block_ip_address_fail st ip r nr ur now _ (by simp)]
        exact hI
    | otherError =>
        rw [block_ip_address_fail st ip r nr ur now _ (by simp)]
        exact hI

theorem unblock_preserves_blockCountInv (st : AgentState) (ip : String)
    (e : Ec2Result) (hA : atMostOneEntry st) (hI : blockCountInv st) :
    blockCountInv (unblock_ip_address st ip e).2 := by
  by_cases hb : (dictGet st.blocked_ips ip).isSome
  · cases e with
    | ok =>
        rw [unblock_ok st ip hb]
        unfold blockCountInv at hI ⊢
        have hlen := length_dictPop_of_unique st.blocked_ips ip (hA ip) hb
        simp only []
        omega
    | duplicateRule =>
        rw [unblock_fail st ip _ (by simp)]
        exact hI
    | clientError =>
        rw [unblock_fail st ip _ (by simp)]
        exact hI
    | otherError =>
        rw [unblock_fail st ip _ (by simp)]
        exact hI
  · rw [unblock_not_blocked st ip e (Option.not_isSome_iff_eq_none.mp hb)]
    exact hI

theorem take_action_preserves_blockCountInv (st : AgentState) (ip : String)
    (r nr ur : ℚ) (now : Int) (e : Ec2Result) (hI : blockCountInv st) :
    blockCountInv (take_action st ip r nr ur now e).2 := by
  by_cases h1 : r < 2/5
  · rw [take_action_low st ip r nr ur now e h1]
    exact hI
  by_cases h2 : r < 3/5
  · rw [take_action_medium st ip r nr ur now e (by linarith) h2]
    exact blockCountInv_of_eq st _ rfl rfl rfl hI
  by_cases h3 : r < 4/5
  · rw [take_action_high st ip r nr ur now e (by linarith) h3]
    exact blockCountInv_of_eq st _ rfl rfl rfl hI
  · by_cases hb : (dictGet st.blocked_ips ip).isSome
    · rw [take_action_critical_noop st ip r nr ur now e (by linarith)
        (block_ip_address_already st ip r nr ur now e hb)]
      exact hI
    · have hnone : dictGet st.blocked_ips ip = none :=
        Option.not_isSome_iff_eq_none.mp hb
      cases e with
      | ok =>
          rw [take_action_critical_new st ip r nr ur now (by linarith) hnone]
          exact blockCountInv_of_eq _ _ rfl rfl rfl
            (block_preserves_blockCountInv st ip r nr ur now Ec2Result.ok hI)
      | duplicateRule =>
          rw [take_action_critical_noop st ip r nr ur now _ (by linarith)
            (block_ip_address_fail st ip r nr ur now _ (by simp))]
          exact hI
      | clientError =>
          rw [take_action_critical_noop st ip r nr ur now _ (by linarith)
            (block_ip_address_fail st ip r nr ur now _ (by simp))]
          exact hI
      | otherError =>
          rw [take_action_critical_noop st ip r nr ur now _ (by linarith)
            (block_ip_address_fail st ip r nr ur now _ (by simp))]
          exact hI

theorem sweep_preserves_both (st : AgentState) (now : Int)
    (extOf : String → Ec2Result) (hA : atMostOneEntry st) (hI : blockCountInv st) :
    atMostOneEntry (check_and_unblock_expired st now extOf) ∧
      blockCountInv (check_and_unblock_expired st now extOf) := by
  unfold check_and_unblock_expired
  exact foldl_preserve (fun s => atMostOneEntry s ∧ blockCountInv s) _
    (fun s j hs => ⟨unblock_preserves_atMostOne s j (extOf j) hs.1,
      unblock_preserves_blockCountInv s j (extOf j) hs.1 hs.2⟩) _ st ⟨hA, hI⟩

/-! Lookup-tracking lemmas for the expiry sweep. -/

theorem unblock_dictGet_ne (st : AgentState) (j ip : String) (e : Ec2Result)
    (h : j ≠ ip) :
    dictGet (unblock_ip_address st j e).2.blocked_ips ip =
      dictGet st.blocked_ips ip := by
  by_cases hb : (dictGet st.blocked_ips j).isSome
  · cases e with
    | ok =>
        rw [unblock_ok st j hb]
        exact dictGet_dictPop_ne st.blocked_ips j ip h
    | duplicateRule => rw [unblock_fail st j _ (by simp)]
    | clientError => rw [unblock_fail st j _ (by simp)]
    | otherError => rw [unblock_fail st j _ (by simp)]
  · rw [unblock_not_blocked st j e (Option.not_isSome_iff_eq_none.mp hb)]

theorem unblock_dictGet_none (st : AgentState) (j ip : String) (e : Ec2Result)
    (h : dictGet st.blocked_ips ip = none) :
    dictGet (unblock_ip_address st j e).2.blocked_ips ip = none := by
  by_cases hb : (dictGet st.blocked_ips j).isSome
  · cases e with
    | ok =>
        rw [unblock_ok st j hb]
        exact dictGet_dictPop_none st.blocked_ips j ip h
    | duplicateRule => rw [unblock_fail st j _ (by simp)]; exact h
    | clientError => rw [unblock_fail st j _ (by simp)]; exact h
    | otherError => rw [unblock_fail st j _ (by simp)]; exact h
  · rw [unblock_not_blocked st j e (Option.not_isSome_iff_eq_none.mp hb)]
    exact h

theorem foldl_unblock_none (js : List String) (extOf : String → Ec2Result)
    (ip : String) :
    ∀ st : AgentState, dictGet st.blocked_ips ip = none →
      dictGet ((js.foldl (fun s j => (unblock_ip_address s j (extOf j)).2) st)).blocked_ips ip
        = none := by
  induction js with
  | nil => intro st h; simpa using h
  | cons j rest ih =>
      intro st h
      simp only [List.foldl_cons]
      exact ih _ (unblock_dictGet_none st j ip (extOf j) h)

theorem foldl_unblock_not_mem (js : List String) (extOf : String → Ec2Result)
    (ip : String) (hnm : ip ∉ js) :
    ∀ st : AgentState,
      dictGet ((js.foldl (fun s j => (unblock_ip_address s j (extOf j)).2) st)).blocked_ips ip
        = dictGet st.blocked_ips ip := by
  induction js with
  | nil => intro st; rfl
  | cons j rest ih =>
      intro st
      have hj : j ≠ ip := fun hc => hnm (by rw [hc]; exact List.mem_cons_self _ _)
      have hrest : ip ∉ rest := fun hc => hnm (List.mem_cons_of_mem _ hc)
      simp only [List.foldl_cons]
      rw [ih hrest _, unblock_dictGet_ne st j ip (extOf j) hj]

theorem foldl_unblock_mem (js : List String) (extOf : String → Ec2Result)
    (ip : String) (hok : extOf ip = Ec2Result.ok) :
    ∀ st : AgentState, ip ∈ js → (dictGet st.blocked_ips ip).isSome →
      dictGet ((js.foldl (fun s j => (unblock_ip_address s j (extOf j)).2) st)).blocked_ips ip
        = none := by
  induction js with
  | nil => intro st hmem; simp at hmem
  | cons j rest ih =>
      intro st hmem hsome
      simp only [List.foldl_cons]
      by_cases hj : j = ip
      · subst hj
        have hpop : dictGet (unblock_ip_address st j (extOf j)).2.blocked_ips j = none := by
          rw [hok, unblock_ok st j hsome]
          exact dictGet_dictPop_self st.blocked_ips j
        exact foldl_unblock_none rest extOf j _ hpop
      · have hmem' : ip ∈ rest := by
          rcases List.mem_cons.mp hmem with hc | hc
          · exact absurd hc.symm hj
          · exact hc
        have hsome' : (dictGet (unblock_ip_address st j (extOf j)).2.blocked_ips ip).isSome := by
          rw [unblock_dictGet_ne st j ip (extOf j) hj]
          exact hsome
        exact ih _ hmem' hsome'

theorem sweep_keeps_unexpired (st : AgentState) (ip : String) (b : BlockedIP)
    (now : Int) (extOf : String → Ec2Result) (hA : atMostOneEntry st)
    (hl : dictGet st.blocked_ips ip = some b)
    (hage : ¬(now - b.blocked_at > st.block_timeout_minutes * 60)) :
    dictGet (check_and_unblock_expired st now extOf).blocked_ips ip = some b := by
  unfold check_and_unblock_expired
  have hnm : ip ∉ (st.blocked_ips.filter
      (fun p => now - p.2.blocked_at > st.block_timeout_minutes * 60)).map
        (fun p => p.1) := by
    intro hmem
    rcases List.mem_map.mp hmem with ⟨p, hpf, hpk⟩
    rcases List.mem_filter.mp hpf with ⟨hpmem, hpred⟩
    have hpair : ((ip, p.2) : String × BlockedIP) ∈ st.blocked_ips := by
      rw [← hpk]
      simpa using hpmem
    have hval := dictGet_unique st.blocked_ips ip b p.2 (hA ip) hl hpair
    rw [hval] at hpred
    exact hage (by simpa using hpred)
  rw [foldl_unblock_not_mem _ extOf ip hnm st]
  exact hl

theorem sweep_removes_expired (st : AgentState) (ip : String) (b : BlockedIP)
    (now : Int) (extOf : String → Ec2Result)
    (hl : dictGet st.blocked_ips ip = some b) (hok : extOf ip = Ec2Result.ok)
    (hage : now - b.blocked_at > st.block_timeout_minutes * 60) :
    dictGet (check_and_unblock_expired st now extOf).blocked_ips ip = none := by
  unfold check_and_unblock_expired
  have hqmem : ((ip, b) : String × BlockedIP) ∈ st.blocked_ips := by
    rcases Option.map_eq_some'.mp hl with ⟨q, hq, hq2⟩
    have hk0 := List.find?_some hq
    have hk' : q.1 = ip := by simpa using hk0
    have : q = (ip, b) := by
      rw [← hk', ← hq2]
    rw [← this]
    exact List.mem_of_find?_eq_some hq
  have hmem : ip ∈ (st.blocked_ips.filter
      (fun p => now - p.2.blocked_at > st.block_timeout_minutes * 60)).map
        (fun p => p.1) :=
    List.mem_map.mpr ⟨(ip, b),
      List.mem_filter.mpr ⟨hqmem, by simpa using hage⟩, rfl⟩
  exact foldl_unblock_mem _ extOf ip hok st hmem (by rw [hl]; rfl)

theorem take_action_registry_unchanged (st : AgentState) (ip : String)
    (r nr ur : ℚ) (now : Int) (e : Ec2Result)
    (hb : (dictGet st.blocked_ips ip).isSome) :
    (take_action st ip r nr ur now e).2.blocked_ips = st.blocked_ips ∧
      (take_action st ip r nr ur now e).2.stats.total_blocks = st.stats.total_blocks := by
  by_cases h1 : r < 2/5
  · rw [take_action_low st ip r nr ur now e h1]
    exact ⟨rfl, rfl⟩
  by_cases h2 : r < 3/5
  · rw [take_action_medium st ip r nr ur now e (by linarith) h2]
    exact ⟨rfl, rfl⟩
  by_cases h3 : r < 4/5
  · rw [take_action_high st ip r nr ur now e (by linarith) h3]
    exact ⟨rfl, rfl⟩
  · rw [take_action_critical_noop st ip r nr ur now e (by linarith)
      (block_ip_address_already st ip r nr ur now e hb)]
    exact ⟨rfl, rfl⟩

theorem processEntities_append_error (users : List UserEntry)
    (fuse : ℚ → ℚ → Except Unit (ℚ × String)) (now : Int)
    (extOf : String → Ec2Result) (bad : NetEntry) (rest : List NetEntry)
    (hbad : fuse bad.network_risk (matchUserRisk users bad.ip) = Except.error ()) :
    ∀ (xs : List NetEntry) (st : AgentState),
      (∀ x ∈ xs, ∃ v, fuse x.network_risk (matchUserRisk users x.ip) = Except.ok v) →
      processEntities st (xs ++ bad :: rest) users fuse now extOf =
        Except.error (cycleState (processEntities st xs users fuse now extOf)) := by
  intro xs
  induction xs with
  | nil =>
      intro st _
      simp only [List.nil_append, processEntities, hbad, cycleState]
  | cons x xs' ih =>
      intro st hpre
      rcases hpre x (List.mem_cons_self _ _) with ⟨v, hv⟩
      simp only [List.cons_append, processEntities, hv]
      exact ih _ (fun y hy => hpre y (List.mem_cons_of_mem _ hy))

theorem strict_level_iff (f : ℚ) :
    ((if f > 4/5 then "CRITICAL"
      else if f > 3/5 then "HIGH"
      else if f > 2/5 then "MEDIUM" else "LOW") = "CRITICAL" ↔ f > 4/5)
  ∧ ((if f > 4/5 then "CRITICAL"
      else if f > 3/5 then "HIGH"
      else if f > 2/5 then "MEDIUM" else "LOW") = "HIGH" ↔
        (f > 3/5 ∧ ¬(f > 4/5)))
  ∧ ((if f > 4/5 then "CRITICAL"
      else if f > 3/5 then "HIGH"
      else if f > 2/5 then "MEDIUM" else "LOW") = "MEDIUM" ↔
        (f > 2/5 ∧ ¬(f > 3/5)))
  ∧ ((if f > 4/5 then "CRITICAL"
      else if f > 3/5 then "HIGH"
      else if f > 2/5 then "MEDIUM" else "LOW") = "LOW" ↔ ¬(f > 2/5)) := by
  split_ifs with h1 h2 h3 <;>
    refine ⟨?_, ?_, ?_, ?_⟩ <;>
      simp_all <;> first
        | linarith
        | (intro h; linarith)

theorem combine_risks_level (n u : ℚ) :
    (combine_risks n u).2 =
      if (combine_risks n u).1 > 4/5 then "CRITICAL"
      else if (combine_risks n u).1 > 3/5 then "HIGH"
      else if (combine_risks n u).1 > 2/5 then "MEDIUM" else "LOW" := rfl

/-! Claim theorems. -/

/-- Claim C2: for every pair of rational inputs, `combine_risks` is a pure
function returning `final_risk = 0.6 * network_risk + 0.4 * user_risk`
exactly (0.6 = 3/5, 0.4 = 2/5), assigning the level by strict thresholds
on `final_risk` (`> 0.8` CRITICAL, `> 0.6` HIGH, `> 0.4` MEDIUM, otherwise
LOW); in particular `combine_risks 1 0 = (0.6, MEDIUM)` and
`combine_risks 0 1 = (0.4, LOW)`. -/
theorem combine_risks_spec (network_risk user_risk : ℚ) :
    (combine_risks network_risk user_risk).1 =
        (3/5) * network_risk + (2/5) * user_risk
  ∧ ((combine_risks network_risk user_risk).2 = "CRITICAL" ↔
      (combine_risks network_risk user_risk).1 > 4/5)
  ∧ ((combine_risks network_risk user_risk).2 = "HIGH" ↔
      ((combine_risks network_risk user_risk).1 > 3/5 ∧
        ¬((combine_risks network_risk user_risk).1 > 4/5)))
  ∧ ((combine_risks network_risk user_risk).2 = "MEDIUM" ↔
      ((combine_risks network_risk user_risk).1 > 2/5 ∧
        ¬((combine_risks network_risk user_risk).1 > 3/5)))
  ∧ ((combine_risks network_risk user_risk).2 = "LOW" ↔
      ¬((combine_risks network_risk user_risk).1 > 2/5))
  ∧ combine_risks 1 0 = (3/5, "MEDIUM")
  ∧ combine_risks 0 1 = (2/5, "LOW") := by
  obtain ⟨hc, hh, hm, hl⟩ :=
    strict_level_iff ((combine_risks network_risk user_risk).1)
  refine ⟨rfl, ?_, ?_, ?_, ?_, by norm_num [combine_risks],
    by norm_num [combine_risks]⟩
  · rw [combine_risks_level]
    exact hc
  · rw [combine_risks_level]
    exact hh
  · rw [combine_risks_level]
    exact hm
  · rw [combine_risks_level]
    exact hl

/-- Claim C5: for every rational `risk_score`, in-range or not,
`assess_threat_level` returns exactly one level by inclusive lower bounds:
CRITICAL iff `risk_score ≥ 0.8`, HIGH iff `0.6 ≤ risk_score < 0.8`,
MEDIUM iff `0.4 ≤ risk_score < 0.6`, LOW iff `risk_score < 0.4`. -/
theorem assess_threat_level_spec (risk_score : ℚ) :
    (assess_threat_level risk_score = "CRITICAL" ↔ risk_score ≥ 4/5)
  ∧ (assess_threat_level risk_score = "HIGH" ↔
      (3/5 ≤ risk_score ∧ risk_score < 4/5))
  ∧ (assess_threat_level risk_score = "MEDIUM" ↔
      (2/5 ≤ risk_score ∧ risk_score < 3/5))
  ∧ (assess_threat_level risk_score = "LOW" ↔ risk_score < 2/5) := by
  unfold assess_threat_level
  split_ifs with h1 h2 h3 <;>
    refine ⟨?_, ?_, ?_, ?_⟩ <;>
      simp_all <;> first
        | linarith
        | (intro h; linarith)

/-- Claim C7, counterexample: constructing the agent with the negative
monitoring interval -5 does not fail — it returns an agent that stores
the interval, so a programming-contract-violating configuration is
silently accepted at startup. -/
theorem init_negative_interval_cex :
    (initAgent "sg-test" "ap-south-1" 10 (-5) 0 true).map
      (fun a => a.monitoring_interval) = some (-5) := by
  rfl

/-- Claim C7, amended: `AutonomousResponseAgent.__init__` performs no
configuration validation. For every configuration — including a negative
`monitoring_interval` — construction succeeds whenever the AWS client
initialization succeeds, storing the values as given, and fails exactly
when the AWS client initialization fails. -/
theorem init_no_validation (security_group_id region : String)
    (block_timeout_minutes monitoring_interval : Int) (now : Int) :
    (initAgent security_group_id region block_timeout_minutes
        monitoring_interval now true).map (fun a => a.monitoring_interval) =
      some monitoring_interval
  ∧ initAgent security_group_id region block_timeout_minutes
      monitoring_interval now true =
        some (initialState security_group_id region block_timeout_minutes
          monitoring_interval now)
  ∧ initAgent security_group_id region block_timeout_minutes
      monitoring_interval now false = none := by
  refine ⟨rfl, rfl, rfl⟩

/-- Claim C9: a network entry whose entity has no matching behavior entry
gets the fixed fallback `user_risk = 0.1`; with `network_risk = 0.5` the
fusion yields `final_risk = 0.34 (= 17/50)` at level LOW, `take_action`
returns LOG leaving the state untouched, and the whole monitoring cycle
mutates nothing beyond its end-of-cycle expiry sweep. -/
theorem unmatched_entity_low_path (st : AgentState) (x : String)
    (users : List UserEntry) (now : Int) (extOf : String → Ec2Result)
    (e : Ec2Result)
    (hno : users.find? (fun u => u.ip == x) = none) :
    matchUserRisk users x = 1/10
  ∧ combine_risks (1/2) (1/10) = (17/50, "LOW")
  ∧ take_action st x (17/50) (1/2) (1/10) now e = ("LOG", st)
  ∧ run_monitoring_cycle st [⟨x, 1/2⟩] users fuse_ok now extOf =
      check_and_unblock_expired st now extOf := by
  have hmatch : matchUserRisk users x = 1/10 := by
    simp [matchUserRisk, hno]
  have hcomb : combine_risks (1/2) (1/10) = (17/50, "LOW") := by
    norm_num [combine_risks]
  have hact : take_action st x (17/50) (1/2) (1/10) now e = ("LOG", st) :=
    take_action_low st x (17/50) (1/2) (1/10) now e (by norm_num)
  refine ⟨hmatch, hcomb, hact, ?_⟩
  have hproc : processEntities st [⟨x, 1/2⟩] users fuse_ok now extOf =
      Except.ok st := by
    simp only [processEntities, hmatch, fuse_ok, hcomb,
      take_action_low st x (17/50) (1/2) (1/10) now (extOf x) (by norm_num)]
  simp only [run_monitoring_cycle]
  rw [hproc]

theorem keyCount_singleton_le (p : String × BlockedIP) (k : String) :
    keyCount [p] k ≤ 1 := by
  rcases p with ⟨a, b⟩
  rw [keyCount_singleton]
  split <;> omega

/-- Claim C1: two consecutive `take_action` calls at a CRITICAL-level risk
score on the same entity leave exactly one registry entry for it and
increment `total_blocks` exactly once; every operation (`take_action` at
any level, `unblock_ip_address`, the expiry sweep) preserves the
invariant of at most one BlockEntry per EntityId; and a `take_action` on
an already-blocked entity never adds an entry or touches `total_blocks`. -/
theorem block_idempotent_at_most_one (st : AgentState) (ip : String)
    (r nr ur nr2 ur2 : ℚ) (now now2 : Int)
    (hr : 4/5 ≤ r) (hnb : dictGet st.blocked_ips ip = none) :
    keyCount (take_action (take_action st ip r nr ur now Ec2Result.ok).2
        ip r nr2 ur2 now2 Ec2Result.ok).2.blocked_ips ip = 1
  ∧ (take_action (take_action st ip r nr ur now Ec2Result.ok).2
        ip r nr2 ur2 now2 Ec2Result.ok).2.stats.total_blocks =
      st.stats.total_blocks + 1
  ∧ (∀ st' ip' r' nr' ur' t e, atMostOneEntry st' →
      atMostOneEntry (take_action st' ip' r' nr' ur' t e).2)
  ∧ (∀ st' ip' e, atMostOneEntry st' →
      atMostOneEntry (unblock_ip_address st' ip' e).2)
  ∧ (∀ st' t ef, atMostOneEntry st' →
      atMostOneEntry (check_and_unblock_expired st' t ef))
  ∧ (∀ st' ip' r' nr' ur' t e, (dictGet st'.blocked_ips ip').isSome →
      (take_action st' ip' r' nr' ur' t e).2.blocked_ips = st'.blocked_ips ∧
        (take_action st' ip' r' nr' ur' t e).2.stats.total_blocks =
          st'.stats.total_blocks) := by
  have h1 := take_action_critical_new st ip r nr ur now hr hnb
  have hblocked := block_ip_address_ok st ip r nr ur now hnb
  have hb1 : (take_action st ip r nr ur now Ec2Result.ok).2.blocked_ips =
      st.blocked_ips ++
        [(ip, { ip_address := ip, blocked_at := now, risk_score := r,
                security_group_id := st.security_group_id,
                reason := "Critical threat: Risk " ++ toString r })] := by
    rw [h1, hblocked]
    rfl
  have hstat1 : (take_action st ip r nr ur now Ec2Result.ok).2.stats.total_blocks =
      st.stats.total_blocks + 1 := by
    rw [h1, hblocked]
    rfl
  have hisSome : (dictGet (take_action st ip r nr ur now Ec2Result.ok).2.blocked_ips ip).isSome := by
    rw [hb1, dictGet_append_right st.blocked_ips ip _ hnb]
    rfl
  obtain ⟨hreg2, hblk2⟩ := take_action_registry_unchanged
    (take_action st ip r nr ur now Ec2Result.ok).2 ip r nr2 ur2 now2
    Ec2Result.ok hisSome
  refine ⟨?_, ?_, ?_, ?_, ?_, ?_⟩
  · rw [hreg2, hb1, keyCount_append, keyCount_singleton,
      keyCount_eq_zero_of_dictGet_none st.blocked_ips ip hnb]
    simp
  · rw [hblk2, hstat1]
  · exact fun st' ip' r' nr' ur' t e h =>
      take_action_preserves_atMostOne st' ip' r' nr' ur' t e h
  · exact fun st' ip' e h => unblock_preserves_atMostOne st' ip' e h
  · exact fun st' t ef h => sweep_preserves_atMostOne st' t ef h
  · exact fun st' ip' r' nr' ur' t e h =>
      take_action_registry_unchanged st' ip' r' nr' ur' t e h

/-- Witness for C1: a fresh agent, entity 9.9.9.9, risk 0.9, two calls. -/
theorem block_idempotent_at_most_one_witness :
    (4:ℚ)/5 ≤ 9/10
  ∧ dictGet sgTestState.blocked_ips "9.9.9.9" = none
  ∧ keyCount (take_action (take_action sgTestState "9.9.9.9" (9/10) (9/10) (9/10) 100
        Ec2Result.ok).2 "9.9.9.9" (9/10) (9/10) (9/10) 200
        Ec2Result.ok).2.blocked_ips "9.9.9.9" = 1
  ∧ (take_action (take_action sgTestState "9.9.9.9" (9/10) (9/10) (9/10) 100
        Ec2Result.ok).2 "9.9.9.9" (9/10) (9/10) (9/10) 200
        Ec2Result.ok).2.stats.total_blocks = sgTestState.stats.total_blocks + 1 :=
  ⟨by norm_num, rfl,
    (block_idempotent_at_most_one sgTestState "9.9.9.9" (9/10) (9/10) (9/10)
      (9/10) (9/10) 100 200 (by norm_num) rfl).1,
    (block_idempotent_at_most_one sgTestState "9.9.9.9" (9/10) (9/10) (9/10)
      (9/10) (9/10) 100 200 (by norm_num) rfl).2.1⟩

/-- Claim C8: `unblock_ip_address` on a blocked entity (external revoke
succeeding) removes its entry, increments `total_unblocks` by exactly
one and reports success; on an entity with no entry it reports a no-op
failure and leaves the state unchanged. -/
theorem unblock_spec (st : AgentState) (ip : String) (b : BlockedIP)
    (hA : atMostOneEntry st) (hl : dictGet st.blocked_ips ip = some b) :
    (unblock_ip_address st ip Ec2Result.ok).1 = true
  ∧ dictGet (unblock_ip_address st ip Ec2Result.ok).2.blocked_ips ip = none
  ∧ (unblock_ip_address st ip Ec2Result.ok).2.blocked_ips.length + 1 =
      st.blocked_ips.length
  ∧ (unblock_ip_address st ip Ec2Result.ok).2.stats.total_unblocks =
      st.stats.total_unblocks + 1
  ∧ (∀ st' ip' e, dictGet st'.blocked_ips ip' = none →
      unblock_ip_address st' ip' e = (false, st')) := by
  have hs : (dictGet st.blocked_ips ip).isSome := by
    rw [hl]
    rfl
  have h := unblock_ok st ip hs
  refine ⟨by rw [h], ?_, ?_, by rw [h],
    fun st' ip' e h' => unblock_not_blocked st' ip' e h'⟩
  · rw [h]
    exact dictGet_dictPop_self st.blocked_ips ip
  · rw [h]
    exact length_dictPop_of_unique st.blocked_ips ip (hA ip) hs

/-- Witness for C8: the one-entry agent, unblocking 9.9.9.9. -/
theorem unblock_spec_witness :
    atMostOneEntry oneBlockedState
  ∧ dictGet oneBlockedState.blocked_ips "9.9.9.9" = some oneBlockedRecord
  ∧ (unblock_ip_address oneBlockedState "9.9.9.9" Ec2Result.ok).1 = true
  ∧ dictGet (unblock_ip_address oneBlockedState "9.9.9.9"
      Ec2Result.ok).2.blocked_ips "9.9.9.9" = none
  ∧ (unblock_ip_address oneBlockedState "9.9.9.9"
      Ec2Result.ok).2.stats.total_unblocks =
        oneBlockedState.stats.total_unblocks + 1 := by
  have hA : atMostOneEntry oneBlockedState :=
    fun k => keyCount_singleton_le ("9.9.9.9", oneBlockedRecord) k
  have hl : dictGet oneBlockedState.blocked_ips "9.9.9.9" =
      some oneBlockedRecord := rfl
  have h := unblock_spec oneBlockedState "9.9.9.9" oneBlockedRecord hA hl
  exact ⟨hA, hl, h.1, h.2.1, h.2.2.2.1⟩

/-- Claim C4: the expiry sweep unblocks exactly the entries whose age
strictly exceeds the timeout, through the unblock path: with a 10-minute
timeout, an entity blocked at time T is still registered after a sweep at
T+9m59s and is gone after a sweep at T+10m01s (external revoke
succeeding). -/
theorem sweep_expiry_boundary (st : AgentState) (ip : String) (b : BlockedIP)
    (T : Int) (extOf : String → Ec2Result) (hA : atMostOneEntry st)
    (hl : dictGet st.blocked_ips ip = some b) (hT : b.blocked_at = T)
    (htimeout : st.block_timeout_minutes = 10)
    (hok : extOf ip = Ec2Result.ok) :
    dictGet (check_and_unblock_expired st (T + 599) extOf).blocked_ips ip = some b
  ∧ dictGet (check_and_unblock_expired st (T + 601) extOf).blocked_ips ip = none := by
  constructor
  · exact sweep_keeps_unexpired st ip b (T + 599) extOf hA hl
      (by rw [hT, htimeout]; omega)
  · exact sweep_removes_expired st ip b (T + 601) extOf hl hok
      (by rw [hT, htimeout]; omega)

/-- Witness for C4: the one-entry agent blocked at T = 100, swept at 699
and at 701. -/
theorem sweep_expiry_boundary_witness :
    dictGet oneBlockedState.blocked_ips "9.9.9.9" = some oneBlockedRecord
  ∧ oneBlockedRecord.blocked_at = 100
  ∧ oneBlockedState.block_timeout_minutes = 10
  ∧ dictGet (check_and_unblock_expired oneBlockedState (100 + 599)
      extAllOk).blocked_ips "9.9.9.9" = some oneBlockedRecord
  ∧ dictGet (check_and_unblock_expired oneBlockedState (100 + 601)
      extAllOk).blocked_ips "9.9.9.9" = none := by
  have hA : atMostOneEntry oneBlockedState :=
    fun k => keyCount_singleton_le ("9.9.9.9", oneBlockedRecord) k
  have h := sweep_expiry_boundary oneBlockedState "9.9.9.9" oneBlockedRecord
    100 extAllOk hA rfl rfl rfl rfl
  exact ⟨rfl, rfl, rfl, h.1, h.2⟩

/-- Claim C10: every operation preserves `total_blocks = |registry| +
total_unblocks` (together with the at-most-one-entry registry invariant
it relies on); both counters start at zero on an empty registry at
construction, and `get_statistics` therefore reports
`currently_blocked = total_blocks - total_unblocks`. -/
theorem counters_match_registry (st : AgentState)
    (hA : atMostOneEntry st) (hI : blockCountInv st) :
    (∀ ip r nr ur now e,
        blockCountInv (take_action st ip r nr ur now e).2 ∧
          atMostOneEntry (take_action st ip r nr ur now e).2)
  ∧ (∀ ip e, blockCountInv (unblock_ip_address st ip e).2 ∧
        atMostOneEntry (unblock_ip_address st ip e).2)
  ∧ (∀ now extOf, blockCountInv (check_and_unblock_expired st now extOf) ∧
        atMostOneEntry (check_and_unblock_expired st now extOf))
  ∧ (∀ sg rg bt mi t0, blockCountInv (initialState sg rg bt mi t0) ∧
        atMostOneEntry (initialState sg rg bt mi t0))
  ∧ (∀ now, (get_statistics st now).currently_blocked =
        st.stats.total_blocks - st.stats.total_unblocks ∧
      (get_statistics st now).currently_blocked =
        (get_statistics st now).total_blocks -
          (get_statistics st now).total_unblocks) := by
  refine ⟨?_, ?_, ?_, ?_, ?_⟩
  · exact fun ip r nr ur now e =>
      ⟨take_action_preserves_blockCountInv st ip r nr ur now e hI,
       take_action_preserves_atMostOne st ip r nr ur now e hA⟩
  · exact fun ip e =>
      ⟨unblock_preserves_blockCountInv st ip e hA hI,
       unblock_preserves_atMostOne st ip e hA⟩
  · exact fun now extOf =>
      ⟨(sweep_preserves_both st now extOf hA hI).2,
       (sweep_preserves_both st now extOf hA hI).1⟩
  · intro sg rg bt mi t0
    constructor
    · rfl
    · intro k
      simp [initialState, keyCount]
  · intro now
    unfold blockCountInv at hI
    constructor
    · simp only [get_statistics]
      omega
    · simp only [get_statistics]
      omega

/-- Witness for C10: a fresh agent at a concrete statistics read. -/
theorem counters_match_registry_witness :
    atMostOneEntry sgTestState
  ∧ blockCountInv sgTestState
  ∧ (get_statistics sgTestState 50).currently_blocked =
      sgTestState.stats.total_blocks - sgTestState.stats.total_unblocks := by
  have hA : atMostOneEntry sgTestState := by
    intro k
    simp [sgTestState, initialState, keyCount]
  have hI : blockCountInv sgTestState := rfl
  exact ⟨hA, hI, ((counters_match_registry sgTestState hA hI).2.2.2.2 50).1⟩

/-- Claim C3, counterexample: the agent has no alert rate limiter at all —
three MEDIUM-band `take_action` calls issued inside the same clock hour
(timestamps 100, 200, 300) append three NotificationRecords, not two,
and `total_alerts` counts all three. -/
theorem rate_limit_absent_cex :
    threeMediumState.alert_history.length = 3
  ∧ threeMediumState.alert_history.length ≠ 2
  ∧ threeMediumState.stats.total_alerts = 3 := by
  norm_num [threeMediumState, sgTestState, take_action, send_alert, log_threat,
    assess_threat_level, initialState, simulate_rate_limiting, block_ip_address]

/-- Claim C3, amended: the agent's `send_alert` path consults no rate
limiter: every MEDIUM-band `take_action` appends exactly one
NotificationRecord and increments `total_alerts`, so three such calls in
the same clock hour append exactly three records while `total_alerts`
reflects each attempted action; the only rate limiter in the codebase,
`AlertSystem.check_rate_limit`, is consulted in `send_email_alert` —
after `create_alert` has already appended the record — and gates only
email delivery. -/
theorem alerts_unlimited_three_appended (st : AgentState)
    (ip1 ip2 ip3 : String) (r1 r2 r3 nr ur : ℚ) (t1 t2 t3 : Int)
    (e1 e2 e3 : Ec2Result) (cfg : AlertSysConfig)
    (history : List (Int × ℚ)) (tnow : Int) (fr : ℚ)
    (h1 : 2/5 ≤ r1) (h1' : r1 < 3/5) (h2 : 2/5 ≤ r2) (h2' : r2 < 3/5)
    (h3 : 2/5 ≤ r3) (h3' : r3 < 3/5) :
    take_action st ip1 r1 nr ur t1 e1 =
      ("ALERT", send_alert st ip1 r1 nr ur "MEDIUM" t1)
  ∧ (take_action (take_action (take_action st ip1 r1 nr ur t1 e1).2
        ip2 r2 nr ur t2 e2).2 ip3 r3 nr ur t3 e3).2.alert_history.length =
      st.alert_history.length + 3
  ∧ (take_action (take_action (take_action st ip1 r1 nr ur t1 e1).2
        ip2 r2 nr ur t2 e2).2 ip3 r3 nr ur t3 e3).2.stats.total_alerts =
      st.stats.total_alerts + 3
  ∧ (create_alert cfg history tnow fr).1 = history ++ [(tnow, fr)]
  ∧ ((create_alert cfg history tnow fr).2 = true ↔
      (cfg.email_threshold ≤ fr ∧ cfg.email_enabled = true ∧
        check_rate_limit cfg (history ++ [(tnow, fr)]) tnow = true)) := by
  have ha1 := take_action_medium st ip1 r1 nr ur t1 e1 h1 h1'
  have ha2 := take_action_medium (take_action st ip1 r1 nr ur t1 e1).2
    ip2 r2 nr ur t2 e2 h2 h2'
  have ha3 := take_action_medium (take_action (take_action st ip1 r1 nr ur t1 e1).2
    ip2 r2 nr ur t2 e2).2 ip3 r3 nr ur t3 e3 h3 h3'
  refine ⟨ha1, ?_, ?_, rfl, ?_⟩
  · rw [ha3, ha2, ha1]
    simp [send_alert]
  · rw [ha3, ha2, ha1]
    simp [send_alert]
  · simp only [create_alert, process_alert, send_email_alert]
    by_cases hc : cfg.email_threshold ≤ fr ∧ cfg.email_enabled = true
    · rw [if_pos hc]
      constructor
      · intro hck
        exact ⟨hc.1, hc.2, hck⟩
      · intro hck
        exact hck.2.2
    · rw [if_neg hc]
      constructor
      · intro hfalse
        exact absurd hfalse (by simp)
      · intro hck
        exact absurd ⟨hck.1, hck.2.1⟩ hc

/-- Witness for C3's amended theorem: three MEDIUM calls at risk 0.5 on a
fresh agent, and a concrete `AlertSystem` configuration. -/
theorem alerts_unlimited_three_appended_witness :
    ((2:ℚ)/5 ≤ 1/2 ∧ (1:ℚ)/2 < 3/5)
  ∧ (take_action (take_action (take_action sgTestState "10.0.0.1" (1/2) (1/2) (1/2) 100
        Ec2Result.ok).2 "10.0.0.2" (1/2) (1/2) (1/2) 200 Ec2Result.ok).2
        "10.0.0.3" (1/2) (1/2) (1/2) 300 Ec2Result.ok).2.alert_history.length =
      sgTestState.alert_history.length + 3
  ∧ (create_alert ⟨true, 3/5, 10⟩ [] 0 (1/2)).1 = [] ++ [(0, 1/2)] := by
  have h := alerts_unlimited_three_appended sgTestState "10.0.0.1" "10.0.0.2"
    "10.0.0.3" (1/2) (1/2) (1/2) (1/2) (1/2) 100 200 300
    Ec2Result.ok Ec2Result.ok Ec2Result.ok ⟨true, 3/5, 10⟩ [] 0 (1/2)
    (by norm_num) (by norm_num) (by norm_num) (by norm_num)
    (by norm_num) (by norm_num)
  exact ⟨⟨by norm_num, by norm_num⟩, h.2.1, h.2.2.2.1⟩

/-- Claim C6, counterexample: in a cycle over two fetched entries where
processing the first one raises at the fusion step, the second entry —
which alone produces a CRITICAL block — is never processed: the cycle
ends with zero blocks, while the same cycle run on the second entry alone
blocks it. -/
theorem cycle_failure_not_isolated_cex :
    (run_monitoring_cycle sgTestState cexNets cexUsers fuseFailHalf 0
        extAllOk).stats.total_blocks = 0
  ∧ (run_monitoring_cycle sgTestState [⟨"10.0.0.2", 19/20⟩] cexUsers
        fuseFailHalf 0 extAllOk).stats.total_blocks = 1 := by
  constructor
  · norm_num [run_monitoring_cycle, processEntities, cexNets, cexUsers,
      fuseFailHalf, matchUserRisk, sgTestState, initialState, extAllOk]
  · norm_num [run_monitoring_cycle, processEntities, cexUsers, fuseFailHalf,
      matchUserRisk, combine_risks, take_action, assess_threat_level,
      block_ip_address, send_alert, dictGet, sgTestState, initialState,
      extAllOk, check_and_unblock_expired, unblock_ip_address, dictPop]

/-- Claim C6, amended: per-entity failures are not isolated — an exception
raised while processing one entity transfers control to the cycle-level
handler, so the remaining entities of the cycle and the end-of-cycle
expiry sweep are skipped; the cycle itself returns normally, keeping the
mutations made before the failure. -/
theorem cycle_failure_aborts_remaining (st : AgentState) (xs : List NetEntry)
    (bad : NetEntry) (rest : List NetEntry) (users : List UserEntry)
    (fuse : ℚ → ℚ → Except Unit (ℚ × String)) (now : Int)
    (extOf : String → Ec2Result)
    (hxs : ∀ x ∈ xs, ∃ v, fuse x.network_risk (matchUserRisk users x.ip) =
      Except.ok v)
    (hbad : fuse bad.network_risk (matchUserRisk users bad.ip) =
      Except.error ()) :
    run_monitoring_cycle st (xs ++ bad :: rest) users fuse now extOf =
      cycleState (processEntities st xs users fuse now extOf) := by
  unfold run_monitoring_cycle
  rw [processEntities_append_error users fuse now extOf bad rest hbad xs st hxs]

/-- Witness for C6's amended theorem: the failing first entry with the
CRITICAL second entry pending. -/
theorem cycle_failure_aborts_remaining_witness :
    fuseFailHalf (1/2) (matchUserRisk cexUsers "10.0.0.1") = Except.error ()
  ∧ run_monitoring_cycle sgTestState
      ([] ++ (⟨"10.0.0.1", 1/2⟩ : NetEntry) :: [⟨"10.0.0.2", 19/20⟩])
      cexUsers fuseFailHalf 0 extAllOk =
    cycleState (processEntities sgTestState [] cexUsers fuseFailHalf 0
      extAllOk) := by
  have hbad : fuseFailHalf (1/2)
      (matchUserRisk cexUsers ((⟨"10.0.0.1", 1/2⟩ : NetEntry)).ip) =
        Except.error () := by
    norm_num [fuseFailHalf]
  exact ⟨hbad, cycle_failure_aborts_remaining sgTestState []
    ⟨"10.0.0.1", 1/2⟩ [⟨"10.0.0.2", 19/20⟩] cexUsers fuseFailHalf 0 extAllOk
    (by intro x hx; simp at hx) hbad⟩

/-- Witness for C9: entity X has no match in the behavior list, network
risk 0.5, on a fresh agent. -/
theorem unmatched_entity_low_path_witness :
    cexUsers.find? (fun u => u.ip == "X") = none
  ∧ matchUserRisk cexUsers "X" = 1/10
  ∧ combine_risks (1/2) (1/10) = (17/50, "LOW")
  ∧ take_action sgTestState "X" (17/50) (1/2) (1/10) 0 Ec2Result.ok =
      ("LOG", sgTestState)
  ∧ run_monitoring_cycle sgTestState [⟨"X", 1/2⟩] cexUsers fuse_ok 0 extAllOk =
      check_and_unblock_expired sgTestState 0 extAllOk := by
  have hno : cexUsers.find? (fun u => u.ip == "X") = none := by
    simp [cexUsers]
  have h := unmatched_entity_low_path sgTestState "X" cexUsers 0 extAllOk
    Ec2Result.ok hno
  exact ⟨hno, h.1, h.2.1, h.2.2.1, h.2.2.2⟩

end ThreatDetection
